import Mathlib

/-!
Verification of the gear-shifting metabolic sweep (simulate.py).

The stress functions, the per-gear bound application, the sweep loop, the
metric extraction and the fold-change computation are embedded shallowly:
real-valued bounds use `ℝ` with `Real.exp`, solver outputs and recorded
metrics use `ℚ`, and the external LP solver is an abstract function from
the mutated model state to a solver output.
-/

namespace MetabolicGearShift

/-- Nonlinear ATP maintenance cost (simulate.py, `calculate_stress_cost`):
`min((|g| * 0.02) ** 1.8, 200.0)`. -/
noncomputable def calculate_stress_cost (glucose_uptake : ℝ) : ℝ :=
  min ((|glucose_uptake| * 0.02) ^ (1.8 : ℝ)) 200.0

/-- Piecewise biomass stress penalty (simulate.py, `calculate_stress_penalty`):
three exponential regimes on the uptake magnitude, clamped at 0.95. -/
noncomputable def calculate_stress_penalty (glucose_uptake : ℝ) : ℝ :=
  let glucose := |glucose_uptake|
  let penalty :=
    if glucose ≤ 30.0 then Real.exp (glucose / 35) / 20
    else if glucose ≤ 80.0 then Real.exp (glucose / 25) / 15
    else Real.exp (glucose / 40) / 10
  min penalty 0.95

/-- One gear configuration (simulate.py, entries of the `gears` list). -/
structure Gear where
  name : String
  glucose : ℝ
  oxygen : ℝ
  burden : ℝ

/-- The five literal gear configurations (simulate.py lines 29-35). -/
noncomputable def gears : List Gear :=
  [⟨"Gear 1", -10.0, -18.0, 0.0⟩,
   ⟨"Gear 2", -30.0, -30.0, 0.05⟩,
   ⟨"Gear 3", -80.0, -60.0, 0.12⟩,
   ⟨"Gear 4", -150.0, -100.0, 0.18⟩,
   ⟨"Gear 5", -250.0, -150.0, 0.25⟩]

/-- The flux bounds of the external model that the sweep mutates
(glucose exchange, oxygen exchange, biomass, ATPM, lactate, ethanol). -/
structure ModelState where
  glc_lb : ℝ
  o2_lb : ℝ
  biomass_ub : ℝ
  atpm_lb : ℝ
  lac_lb : ℝ
  lac_ub : ℝ
  etoh_lb : ℝ
  etoh_ub : ℝ

/-- Factor by which a gear scales the biomass upper bound read at line 49:
`max(0.001, 1 - burden - stress_penalty)` (simulate.py line 51). -/
noncomputable def gearFactor (g : Gear) : ℝ :=
  max 0.001 (1 - g.burden - calculate_stress_penalty g.glucose)

/-- Per-gear bound mutation (simulate.py lines 44-61). `base_biomass` is the
biomass upper bound currently in the model state, read inside the loop. -/
noncomputable def applyGear (st : ModelState) (g : Gear) : ModelState :=
  { glc_lb := g.glucose
    o2_lb := g.oxygen
    biomass_ub := st.biomass_ub * gearFactor g
    atpm_lb := 35.0 + calculate_stress_cost g.glucose
    lac_lb := 0.0
    lac_ub := 1000.0
    etoh_lb := 0.0
    etoh_ub := 1000.0 }

/-- Output of the external solver (spec §6): an optional objective value and
a per-reaction flux mapping. -/
structure SolverOutput where
  objective : Option ℚ
  fluxes : String → Option ℚ

/-- Exact round-half-to-even to two decimal places, as Python `round(x, 2)`. -/
def pyRound2 (q : ℚ) : ℚ :=
  let s := q * 100
  let n : ℤ := ⌊s⌋
  let frac : ℚ := s - n
  let r : ℤ :=
    if frac < 1 / 2 then n
    else if 1 / 2 < frac then n + 1
    else if n % 2 = 0 then n else n + 1
  (r : ℚ) / 100

/-- One row of the results list (simulate.py lines 73-80). -/
structure SimResult where
  gear : String
  growth : ℚ
  atp : ℚ
  glucose : ℚ
  lactate : ℚ
  ethanol : ℚ
  deriving DecidableEq

/-- Metric extraction for one gear (simulate.py lines 66-80): fluxes default
to 0.0 when absent; growth and ATP pass through a Python falsy check before
rounding, the other three are rounded unconditionally. -/
def extractResult (gname : String) (out : SolverOutput) : SimResult :=
  let growth := (out.objective).getD 0
  let atp := (out.fluxes "ATPS4rpp").getD 0
  let glucose := (out.fluxes "EX_glc__D_e").getD 0
  let lactate := (out.fluxes "EX_lac__D_e").getD 0
  let ethanol := (out.fluxes "EX_etoh_e").getD 0
  { gear := gname
    growth := if growth = 0 then 0 else pyRound2 growth
    atp := if atp = 0 then 0 else pyRound2 atp
    glucose := pyRound2 glucose
    lactate := pyRound2 lactate
    ethanol := pyRound2 ethanol }

/-- The sweep loop (simulate.py lines 41-80): for each gear, mutate the shared
model state, solve, and append one extracted result. Returns the final state
and the result list in gear order. -/
noncomputable def runSweep (solve : ModelState → SolverOutput) :
    ModelState → List Gear → ModelState × List SimResult
  | st, [] => (st, [])
  | st, g :: gs =>
    let st1 := applyGear st g
    let r := extractResult g.name (solve st1)
    let rest := runSweep solve st1 gs
    (rest.1, r :: rest.2)

/-- The model states in effect at each gear's solve, in gear order: the chain
of in-place mutations performed by the sweep loop. -/
noncomputable def sweepStates : ModelState → List Gear → List ModelState
  | _, [] => []
  | st, g :: gs =>
    let st1 := applyGear st g
    st1 :: sweepStates st1 gs

/-- Value of a floating-point division on the stored metrics: exact on a
nonzero denominator; on a zero denominator, signed infinity or NaN produced
silently, as numpy float64 division gives. -/
inductive FVal where
  | num : ℚ → FVal
  | inf : FVal
  | ninf : FVal
  | nan : FVal
  deriving DecidableEq

/-- Division as performed on the stored metric values by lines 90-92. -/
def fdiv (a b : ℚ) : FVal :=
  if b = 0 then
    if a = 0 then FVal.nan else if 0 < a then FVal.inf else FVal.ninf
  else FVal.num (a / b)

/-- The three fold-change ratios of one result against the baseline
(simulate.py lines 90-92). -/
structure FoldRecord where
  glucose_fold : FVal
  atp_fold : FVal
  growth_fold : FVal
  deriving DecidableEq

/-- Fold-change ratios of `gear` against the baseline `gear1`
(simulate.py lines 90-92), computed from the stored (rounded) fields. -/
def foldRecord (gear1 gear : SimResult) : FoldRecord :=
  { glucose_fold := fdiv |gear.glucose| |gear1.glucose|
    atp_fold := fdiv gear.atp gear1.atp
    growth_fold := fdiv gear.growth gear1.growth }

/-- Fold improvements of every non-baseline result against the first result
(simulate.py lines 88-96). -/
def foldImprovements : List SimResult → List FoldRecord
  | [] => []
  | r0 :: rest => rest.map (foldRecord r0)

/-- Modelled from the spec: §4.1 `capacityPenalty`, written from the spec's
words ("min of 0.95 and the regime formula", boundaries inclusive on the
lower regime), for comparison with `calculate_stress_penalty`. -/
noncomputable def capacityPenaltySpec (g : ℝ) : ℝ :=
  min 0.95 (if g ≤ 30 then Real.exp (g / 35) / 20
    else if g ≤ 80 then Real.exp (g / 25) / 15
    else Real.exp (g / 40) / 10)

/-- Modelled from the spec: §4.1 `maintenanceCost`, written from the spec's
words, for comparison with `calculate_stress_cost`. -/
noncomputable def maintenanceCostSpec (g : ℝ) : ℝ :=
  min ((g * 0.02) ^ (1.8 : ℝ)) 200.0

/-- Modelled from the spec: §7 `InvalidGearConfig` validity condition, written
from the spec's words: burden in [0,1) and negative uptake bounds. -/
def gearValidSpec (g : Gear) : Prop :=
  0 ≤ g.burden ∧ g.burden < 1 ∧ g.glucose < 0 ∧ g.oxygen < 0

/-- A gear whose burden 1.5 lies outside [0,1) (spec `InvalidGearConfig`). -/
noncomputable def badGear : Gear := ⟨"Gear X", -10.0, -18.0, 1.5⟩

/-- A solver stub returning no objective value and an empty flux mapping. -/
def trivSolve : ModelState → SolverOutput := fun _ => ⟨none, fun _ => none⟩

/-- An initial model state with nominal biomass upper bound 1000. -/
noncomputable def st0 : ModelState := ⟨0, 0, 1000, 0, 0, 0, 0, 0⟩

/-- A solver output with no objective value but a glucose flux still present
in the flux mapping. -/
def out4 : SolverOutput :=
  ⟨none, fun n => if n = "EX_glc__D_e" then some (-7) else none⟩

/- ### Helper lemmas -/

theorem pyRound2_zero : pyRound2 0 = 0 := by
  simp [pyRound2]

theorem exp_lt_of_le_one {x : ℝ} (hx : x ≤ 1) :
    Real.exp x < 2.7182818286 :=
  lt_of_le_of_lt (Real.exp_le_exp.mpr hx) Real.exp_one_lt_d9

theorem gearFactor_pos (g : Gear) : 0 < gearFactor g :=
  lt_of_lt_of_le (by norm_num) (le_max_left _ _)

theorem runSweep_snd_length (solve : ModelState → SolverOutput)
    (st : ModelState) (gs : List Gear) :
    ((runSweep solve st gs).2).length = gs.length := by
  induction gs generalizing st with
  | nil => simp [runSweep]
  | cons g gs ih => simp [runSweep, ih]

theorem runSweep_snd_names (solve : ModelState → SolverOutput)
    (st : ModelState) (gs : List Gear) :
    ((runSweep solve st gs).2).map (fun r => r.gear) =
      gs.map (fun g => g.name) := by
  induction gs generalizing st with
  | nil => simp [runSweep]
  | cons g gs ih => simp [runSweep, extractResult, ih]

theorem csp_eq_low {g : ℝ} (h0 : 0 ≤ g) (h : g ≤ 30) :
    calculate_stress_penalty g = min (Real.exp (g / 35) / 20) 0.95 := by
  simp only [calculate_stress_penalty, abs_of_nonneg h0]
  rw [if_pos (by linarith)]

theorem csp_eq_mid {g : ℝ} (h1 : 30 < g) (h2 : g ≤ 80) :
    calculate_stress_penalty g = min (Real.exp (g / 25) / 15) 0.95 := by
  simp only [calculate_stress_penalty, abs_of_nonneg (by linarith : (0:ℝ) ≤ g)]
  rw [if_neg (by push_neg; linarith), if_pos (by linarith)]

theorem csp_eq_high {g : ℝ} (h : 80 < g) :
    calculate_stress_penalty g = min (Real.exp (g / 40) / 10) 0.95 := by
  simp only [calculate_stress_penalty, abs_of_nonneg (by linarith : (0:ℝ) ≤ g)]
  rw [if_neg (by push_neg; linarith), if_neg (by push_neg; linarith)]

theorem csp_nonneg (g : ℝ) : 0 ≤ calculate_stress_penalty g := by
  simp only [calculate_stress_penalty]
  refine le_min ?_ (by norm_num)
  split_ifs <;> positivity

theorem csp_le_clamp (g : ℝ) : calculate_stress_penalty g ≤ 0.95 := by
  simp only [calculate_stress_penalty]
  exact min_le_right _ _

/-- C5: for every uptake magnitude g ≥ 0, the code's stress penalty equals the
spec's capacityPenalty — min of 0.95 and the regime formula, with branch
boundaries inclusive on the lower regime: g = 30 uses the first formula and
g = 80 the second. -/
theorem c5_capacity_penalty_matches_spec :
    (∀ g : ℝ, 0 ≤ g → calculate_stress_penalty g = capacityPenaltySpec g) ∧
    calculate_stress_penalty 30 = min 0.95 (Real.exp (30 / 35) / 20) ∧
    calculate_stress_penalty 80 = min 0.95 (Real.exp (80 / 25) / 15) := by
  refine ⟨fun g hg => ?_, ?_, ?_⟩
  · simp only [calculate_stress_penalty, capacityPenaltySpec, abs_of_nonneg hg]
    rw [min_comm]
    norm_num
  · rw [csp_eq_low (by norm_num) (by norm_num), min_comm]
  · rw [csp_eq_mid (by norm_num) (by norm_num), min_comm]

/-- C5 witness: the regime equality instantiated at g = 30. -/
theorem c5_capacity_penalty_matches_spec_witness :
    (0:ℝ) ≤ 30 ∧ calculate_stress_penalty 30 = capacityPenaltySpec 30 :=
  ⟨by norm_num, c5_capacity_penalty_matches_spec.1 30 (by norm_num)⟩

/-- C6: for every uptake magnitude g ≥ 0, the code's stress cost equals the
spec's maintenanceCost `min((g * 0.02) ^ 1.8, 200.0)`, it is monotonically
increasing in g, and it is hard-capped so that its value at 10000 is exactly
200.0. -/
theorem c6_maintenance_cost_matches_spec :
    (∀ g : ℝ, 0 ≤ g → calculate_stress_cost g = maintenanceCostSpec g) ∧
    (∀ a b : ℝ, 0 ≤ a → a ≤ b →
      calculate_stress_cost a ≤ calculate_stress_cost b) ∧
    calculate_stress_cost 10000 = 200.0 := by
  refine ⟨fun g hg => ?_, fun a b ha hab => ?_, ?_⟩
  · simp only [calculate_stress_cost, maintenanceCostSpec, abs_of_nonneg hg]
  · simp only [calculate_stress_cost]
    refine min_le_min ?_ le_rfl
    have h1 : |a| * 0.02 ≤ |b| * 0.02 := by
      rw [abs_of_nonneg ha, abs_of_nonneg (le_trans ha hab)]
      linarith
    exact Real.rpow_le_rpow (by positivity) h1 (by norm_num)
  · simp only [calculate_stress_cost]
    have h200 : (200.0 : ℝ) = 200 := by norm_num
    have habs : |(10000:ℝ)| * 0.02 = 200 := by norm_num
    rw [habs, h200]
    have hcap : (200:ℝ) ≤ (200:ℝ) ^ (1.8:ℝ) := by
      have h := Real.rpow_le_rpow_of_exponent_le
        (by norm_num : (1:ℝ) ≤ 200) (by norm_num : (1:ℝ) ≤ 1.8)
      rwa [Real.rpow_one] at h
    exact min_eq_right hcap

/-- C6 witness: the refinement equality instantiated at g = 5 and the cap at
g = 10000. -/
theorem c6_maintenance_cost_matches_spec_witness :
    (0:ℝ) ≤ 5 ∧ calculate_stress_cost 5 = maintenanceCostSpec 5 :=
  ⟨by norm_num, c6_maintenance_cost_matches_spec.1 5 (by norm_num)⟩

/-- C7: for every uptake magnitude g ≥ 0 the stress penalty lies in
[0, 0.95], and within each of the three regimes (g ≤ 30, 30 < g ≤ 80,
g > 80) it is monotonically non-decreasing. -/
theorem c7_capacity_penalty_range_and_regime_mono :
    (∀ g : ℝ, 0 ≤ g →
      0 ≤ calculate_stress_penalty g ∧ calculate_stress_penalty g ≤ 0.95) ∧
    (∀ a b : ℝ, 0 ≤ a → a ≤ b → b ≤ 30 →
      calculate_stress_penalty a ≤ calculate_stress_penalty b) ∧
    (∀ a b : ℝ, 30 < a → a ≤ b → b ≤ 80 →
      calculate_stress_penalty a ≤ calculate_stress_penalty b) ∧
    (∀ a b : ℝ, 80 < a → a ≤ b →
      calculate_stress_penalty a ≤ calculate_stress_penalty b) := by
  refine ⟨fun g _ => ⟨csp_nonneg g, csp_le_clamp g⟩,
    fun a b ha hab hb => ?_, fun a b ha hab hb => ?_, fun a b ha hab => ?_⟩
  · rw [csp_eq_low ha (le_trans hab hb), csp_eq_low (le_trans ha hab) hb]
    have : Real.exp (a / 35) ≤ Real.exp (b / 35) :=
      Real.exp_le_exp.mpr (by linarith)
    exact min_le_min (by linarith) le_rfl
  · rw [csp_eq_mid ha (le_trans hab hb), csp_eq_mid (lt_of_lt_of_le ha hab) hb]
    have : Real.exp (a / 25) ≤ Real.exp (b / 25) :=
      Real.exp_le_exp.mpr (by linarith)
    exact min_le_min (by linarith) le_rfl
  · rw [csp_eq_high ha, csp_eq_high (lt_of_lt_of_le ha hab)]
    have : Real.exp (a / 40) ≤ Real.exp (b / 40) :=
      Real.exp_le_exp.mpr (by linarith)
    exact min_le_min (by linarith) le_rfl

/-- C7 witness: the range bound at g = 0 and the low-regime monotonicity
between 10 and 30. -/
theorem c7_capacity_penalty_range_and_regime_mono_witness :
    (0 ≤ calculate_stress_penalty 0 ∧ calculate_stress_penalty 0 ≤ 0.95) ∧
    calculate_stress_penalty 10 ≤ calculate_stress_penalty 30 :=
  ⟨c7_capacity_penalty_range_and_regime_mono.1 0 le_rfl,
   c7_capacity_penalty_range_and_regime_mono.2.1 10 30
     (by norm_num) (by norm_num) (by norm_num)⟩

/-- C8: for any solver and initial model state, sweeping the five literal
gear configs yields exactly 5 results, in gear order, and a reaction absent
from the flux mapping contributes the default 0.0 to every flux field. -/
theorem c8_sweep_five_results_in_order :
    (∀ (solve : ModelState → SolverOutput) (st : ModelState),
      ((runSweep solve st gears).2).length = 5 ∧
      ((runSweep solve st gears).2).map (fun r => r.gear) =
        ["Gear 1", "Gear 2", "Gear 3", "Gear 4", "Gear 5"]) ∧
    (∀ (gname : String) (obj : Option ℚ),
      (extractResult gname ⟨obj, fun _ => none⟩).atp = 0 ∧
      (extractResult gname ⟨obj, fun _ => none⟩).glucose = 0 ∧
      (extractResult gname ⟨obj, fun _ => none⟩).lactate = 0 ∧
      (extractResult gname ⟨obj, fun _ => none⟩).ethanol = 0) := by
  refine ⟨fun solve st => ⟨?_, ?_⟩, fun gname obj => ?_⟩
  · rw [runSweep_snd_length]
    simp [gears]
  · rw [runSweep_snd_names]
    simp [gears]
  · refine ⟨?_, ?_, ?_, ?_⟩ <;> simp [extractResult, pyRound2_zero]

/-- C10: every numeric metric stored in a SimulationResult is the solver's
raw value (defaulted to 0) rounded to 2 decimal places — the falsy checks on
growth and ATP coincide with rounding, since rounding fixes 0 — and the
fold-change ratios are computed from these stored rounded fields. -/
theorem c10_metrics_rounded_and_folds_from_rounded :
    (∀ (gname : String) (out : SolverOutput),
      (extractResult gname out).growth = pyRound2 ((out.objective).getD 0) ∧
      (extractResult gname out).atp =
        pyRound2 ((out.fluxes "ATPS4rpp").getD 0) ∧
      (extractResult gname out).glucose =
        pyRound2 ((out.fluxes "EX_glc__D_e").getD 0) ∧
      (extractResult gname out).lactate =
        pyRound2 ((out.fluxes "EX_lac__D_e").getD 0) ∧
      (extractResult gname out).ethanol =
        pyRound2 ((out.fluxes "EX_etoh_e").getD 0)) ∧
    (∀ r0 r : SimResult,
      foldImprovements [r0, r] =
        [⟨fdiv |r.glucose| |r0.glucose|, fdiv r.atp r0.atp,
          fdiv r.growth r0.growth⟩]) := by
  refine ⟨fun gname out => ⟨?_, ?_, rfl, rfl, rfl⟩, fun r0 r => rfl⟩
  · show (if (out.objective).getD 0 = 0 then 0
      else pyRound2 ((out.objective).getD 0)) = _
    split_ifs with h
    · rw [h, pyRound2_zero]
    · rfl
  · show (if (out.fluxes "ATPS4rpp").getD 0 = 0 then 0
      else pyRound2 ((out.fluxes "ATPS4rpp").getD 0)) = _
    split_ifs with h
    · rw [h, pyRound2_zero]
    · rfl

/-- C2 (evidence of the unguarded division): against a baseline result whose
glucose, ATP and growth metrics are all 0.0 (an infeasible baseline solve),
the fold-change computation of lines 90-92 silently produces an infinite
value for all three ratios — no explicit error or "undefined" result exists
in its output. -/
theorem c2_zero_baseline_gives_silent_infinity :
    foldImprovements
      [⟨"Gear 1", 0, 0, 0, 0, 0⟩, ⟨"Gear 2", 2, 5, -30, 0, 0⟩] =
      [⟨FVal.inf, FVal.inf, FVal.inf⟩] := by
  decide

/-- C9 counterexample: a gear configuration with burden 1.5 — outside [0,1) —
is not rejected anywhere: the sweep runs over it and records a result; no
configuration-construction validation exists in the code. -/
theorem c9_counterexample_invalid_gear_accepted :
    ¬ gearValidSpec badGear ∧
    ((runSweep trivSolve st0 [badGear]).2).length = 1 := by
  constructor
  · intro h
    have h2 := h.2.1
    simp only [badGear] at h2
    norm_num at h2
  · rw [runSweep_snd_length]
    rfl

/-- C9 amended: the code performs no gear-configuration validation at all —
every gear list, valid or not, is swept in full, one result per gear — while
the five literal gear configs do all satisfy the spec's validity conditions
(burden in [0,1), negative glucose and oxygen uptake bounds). -/
theorem c9_no_construction_validation :
    (∀ g ∈ gears, gearValidSpec g) ∧
    (∀ (solve : ModelState → SolverOutput) (st : ModelState) (gs : List Gear),
      ((runSweep solve st gs).2).length = gs.length) := by
  constructor
  · intro g hg
    simp only [gears, List.mem_cons, List.not_mem_nil, or_false] at hg
    rcases hg with h | h | h | h | h <;> subst h <;>
      exact ⟨by norm_num, by norm_num, by norm_num, by norm_num⟩
  · exact runSweep_snd_length

/-- C9 witness: the amended theorem applied to the first literal gear. -/
theorem c9_no_construction_validation_witness :
    gearValidSpec ⟨"Gear 1", -10.0, -18.0, 0.0⟩ :=
  c9_no_construction_validation.1 _ (by simp [gears])

/-- C4 counterexample: when the solver returns no objective value, the
recorded growth rate is 0.0, but a flux still present in the mapping is
recorded as its rounded value — here the glucose field is -7.0, not 0.0, so
not all four flux fields are zeroed. -/
theorem c4_counterexample_fluxes_not_zeroed :
    (extractResult "Gear 1" out4).growth = 0 ∧
    (extractResult "Gear 1" out4).glucose = -7 := by
  have hfloor : ⌊(-7 : ℚ) * 100⌋ = -700 := by norm_num
  have h7 : pyRound2 (-7) = -7 := by
    simp only [pyRound2, hfloor]
    norm_num
  constructor
  · simp [extractResult, out4]
  · simp [extractResult, out4, h7]

/-- C4 amended: when the solver's objective value is falsy (none or 0.0),
the recorded growth rate is 0.0, no error is raised and the sweep records
exactly one result per gear and continues; the ATP field is 0.0 whenever the
raw ATP flux defaults to or equals 0, but the glucose, lactate and ethanol
fields record the rounded raw mapping values, which are 0.0 only when those
fluxes are absent or zero. -/
theorem c4_infeasible_solve_recorded_locally :
    (∀ (gname : String) (out : SolverOutput),
      (out.objective = none ∨ out.objective = some 0) →
      (extractResult gname out).growth = 0 ∧
      ((out.fluxes "ATPS4rpp").getD 0 = 0 →
        (extractResult gname out).atp = 0) ∧
      (extractResult gname out).glucose =
        pyRound2 ((out.fluxes "EX_glc__D_e").getD 0) ∧
      (extractResult gname out).lactate =
        pyRound2 ((out.fluxes "EX_lac__D_e").getD 0) ∧
      (extractResult gname out).ethanol =
        pyRound2 ((out.fluxes "EX_etoh_e").getD 0)) ∧
    (∀ (solve : ModelState → SolverOutput) (st : ModelState) (g : Gear)
      (gs : List Gear),
      ((runSweep solve st (g :: gs)).2).length = gs.length + 1) := by
  constructor
  · intro gname out hobj
    refine ⟨?_, ?_, rfl, rfl, rfl⟩
    · show (if (out.objective).getD 0 = 0 then 0
        else pyRound2 ((out.objective).getD 0)) = 0
      rcases hobj with h | h <;> rw [h] <;> simp
    · intro h
      show (if (out.fluxes "ATPS4rpp").getD 0 = 0 then 0
        else pyRound2 ((out.fluxes "ATPS4rpp").getD 0)) = 0
      rw [if_pos h]
  · intro solve st g gs
    rw [runSweep_snd_length]
    rfl

/-- C4 witness: the amended theorem applied to a concrete falsy-objective
solver output. -/
theorem c4_infeasible_solve_recorded_locally_witness :
    (out4.objective = none ∨ out4.objective = some 0) ∧
    (extractResult "Gear 1" out4).growth = 0 :=
  ⟨Or.inl rfl,
   (c4_infeasible_solve_recorded_locally.1 "Gear 1" out4 (Or.inl rfl)).1⟩

theorem exp_16_5_gt : (14.25 : ℝ) < Real.exp (16 / 5) := by
  have h1 : (2.7182818283 : ℝ) < Real.exp 1 := Real.exp_one_gt_d9
  have h2 : Real.exp (16 / 5 : ℝ) = Real.exp 1 ^ (3 : ℕ) * Real.exp (1 / 5) := by
    rw [← Real.exp_nat_mul, ← Real.exp_add]
    norm_num
  have h3 : (1.2 : ℝ) ≤ Real.exp (1 / 5) := by
    have h := Real.add_one_le_exp ((1 : ℝ) / 5)
    linarith
  have ha : (2.7182818283 : ℝ) ^ (3 : ℕ) ≤ Real.exp 1 ^ (3 : ℕ) :=
    pow_le_pow_left₀ (by norm_num) (le_of_lt h1) 3
  have hb : (2.7182818283 : ℝ) ^ (3 : ℕ) * 1.2 ≤
      Real.exp 1 ^ (3 : ℕ) * Real.exp (1 / 5) :=
    mul_le_mul ha h3 (by norm_num) (by positivity)
  have hc : (14.25 : ℝ) < (2.7182818283 : ℝ) ^ (3 : ℕ) * 1.2 := by norm_num
  rw [h2]
  linarith

theorem csp_m10 : calculate_stress_penalty (-10.0) = Real.exp (10 / 35) / 20 := by
  have habs : |(-10.0 : ℝ)| = 10 := by norm_num
  simp only [calculate_stress_penalty, habs]
  rw [if_pos (by norm_num)]
  refine min_eq_left ?_
  have h := exp_lt_of_le_one (x := (10 : ℝ) / 35) (by norm_num)
  linarith

theorem csp_m30 : calculate_stress_penalty (-30.0) = Real.exp (30 / 35) / 20 := by
  have habs : |(-30.0 : ℝ)| = 30 := by norm_num
  simp only [calculate_stress_penalty, habs]
  rw [if_pos (by norm_num)]
  refine min_eq_left ?_
  have h := exp_lt_of_le_one (x := (30 : ℝ) / 35) (by norm_num)
  linarith

theorem csp_m80 : calculate_stress_penalty (-80.0) = 0.95 := by
  have habs : |(-80.0 : ℝ)| = 80 := by norm_num
  simp only [calculate_stress_penalty, habs]
  rw [if_neg (by norm_num), if_pos (by norm_num)]
  refine min_eq_right ?_
  have h : (80 : ℝ) / 25 = 16 / 5 := by norm_num
  rw [h]
  have := exp_16_5_gt
  linarith

theorem gf_g1 :
    gearFactor ⟨"Gear 1", -10.0, -18.0, 0.0⟩ = 1 - Real.exp (10 / 35) / 20 := by
  simp only [gearFactor, csp_m10]
  rw [max_eq_right ?h]
  · norm_num
  case h =>
    have h := exp_lt_of_le_one (x := (10 : ℝ) / 35) (by norm_num)
    norm_num
    linarith

theorem gf_g2 :
    gearFactor ⟨"Gear 2", -30.0, -30.0, 0.05⟩ =
      1 - 0.05 - Real.exp (30 / 35) / 20 := by
  simp only [gearFactor, csp_m30]
  rw [max_eq_right ?h]
  case h =>
    have h := exp_lt_of_le_one (x := (30 : ℝ) / 35) (by norm_num)
    norm_num
    linarith

theorem gf_g3 : gearFactor ⟨"Gear 3", -80.0, -60.0, 0.12⟩ = 0.001 := by
  simp only [gearFactor, csp_m80]
  rw [max_eq_left (by norm_num)]

/-- C1 counterexample: in the sweep over the five literal gears, the biomass
upper bound in effect at Gear 2's solve is not
`nominalBiomassBound * max(0.001, 1 - burden - penalty)` for Gear 2's
parameters: line 49 re-reads the bound inside the loop, after Gear 1's
mutation, so Gear 1's factor is still multiplied in. -/
theorem c1_counterexample_bounds_compound :
    ((sweepStates st0 gears).map (fun s => s.biomass_ub)).getD 1 0 ≠
      st0.biomass_ub *
        max 0.001 (1 - 0.05 - calculate_stress_penalty (-30.0)) := by
  have ha0 : (0 : ℝ) < Real.exp (10 / 35) := Real.exp_pos _
  have hb1 : Real.exp ((30 : ℝ) / 35) < 2.7182818286 :=
    exp_lt_of_le_one (by norm_num)
  have hmax : max (0.001 : ℝ) (1 - 0.05 - calculate_stress_penalty (-30.0)) =
      1 - 0.05 - Real.exp (30 / 35) / 20 := by
    rw [csp_m30, max_eq_right (by linarith)]
  simp only [gears, sweepStates, List.map_cons, List.getD_cons_succ,
    List.getD_cons_zero, applyGear, hmax, st0, gf_g1, gf_g2]
  have hc : (0 : ℝ) < 1 - 0.05 - Real.exp (30 / 35) / 20 := by linarith
  intro heq
  nlinarith [mul_pos hc ha0, heq]

/-- C1 amended: because line 49 re-reads the biomass upper bound inside the
loop, the bound in effect at gear i's solve is the pre-sweep nominal bound
times the product of the factors `max(0.001, 1 - burden - penalty)` of all
gears up to and including gear i — successive gears' biomass adjustments
compound multiplicatively. -/
theorem c1_amended_bounds_compound_as_product :
    ∀ (gs : List Gear) (st : ModelState) (i : ℕ), i < gs.length →
      ((sweepStates st gs).map (fun s => s.biomass_ub)).getD i 0 =
        st.biomass_ub * ((gs.take (i + 1)).map gearFactor).prod := by
  intro gs
  induction gs with
  | nil =>
    intro st i hi
    simp at hi
  | cons g gs ih =>
    intro st i hi
    cases i with
    | zero =>
      simp only [sweepStates, List.map_cons, List.getD_cons_zero,
        List.take_succ_cons, List.take_zero, List.map_nil, List.prod_cons,
        List.prod_nil, applyGear]
      ring
    | succ i =>
      have h' : i < gs.length := by
        simpa using hi
      have hrec := ih (applyGear st g) i h'
      simp only [sweepStates, List.map_cons, List.getD_cons_succ,
        List.take_succ_cons, List.prod_cons]
      rw [hrec]
      simp only [applyGear]
      ring

/-- C1 witness: the amended product formula instantiated at the second gear
of the literal sweep. -/
theorem c1_amended_bounds_compound_as_product_witness :
    1 < gears.length ∧
    ((sweepStates st0 gears).map (fun s => s.biomass_ub)).getD 1 0 =
      st0.biomass_ub * ((gears.take 2).map gearFactor).prod :=
  ⟨by simp [gears],
   c1_amended_bounds_compound_as_product gears st0 1 (by simp [gears])⟩

/-- C3 counterexample: at Gear 3's solve in the literal sweep, the biomass
upper bound in effect is strictly below `0.001 *` the pre-sweep nominal
bound: Gear 3's factor is the floor 0.001, but it multiplies the bound
already cut by Gears 1 and 2, not the nominal bound. -/
theorem c3_counterexample_floor_below_nominal :
    ((sweepStates st0 gears).map (fun s => s.biomass_ub)).getD 2 0 <
      0.001 * st0.biomass_ub := by
  have ha0 : (0 : ℝ) < Real.exp (10 / 35) := Real.exp_pos _
  have ha1 : Real.exp ((10 : ℝ) / 35) < 2.7182818286 :=
    exp_lt_of_le_one (by norm_num)
  have hb0 : (0 : ℝ) < Real.exp (30 / 35) := Real.exp_pos _
  have hb1 : Real.exp ((30 : ℝ) / 35) < 2.7182818286 :=
    exp_lt_of_le_one (by norm_num)
  simp only [gears, sweepStates, List.map_cons, List.getD_cons_succ,
    List.getD_cons_zero, applyGear, st0, gf_g1, gf_g2, gf_g3]
  nlinarith [mul_pos ha0 hb0]

/-- C3 amended: every biomass bound set during a sweep is non-negative when
the nominal bound is, and each gear's adjusted bound is at least `0.001 *`
the bound currently in the model when that gear is applied (the previous
gear's adjusted bound) — but that floor is relative to the running bound,
not to the pre-sweep nominal bound. -/
theorem c3_amended_floor_is_relative :
    (∀ (gs : List Gear) (st : ModelState), 0 ≤ st.biomass_ub →
      ∀ s ∈ sweepStates st gs, 0 ≤ s.biomass_ub) ∧
    (∀ (st : ModelState) (g : Gear), 0 ≤ st.biomass_ub →
      0.001 * st.biomass_ub ≤ (applyGear st g).biomass_ub) := by
  constructor
  · intro gs
    induction gs with
    | nil =>
      intro st _ s hs
      simp [sweepStates] at hs
    | cons g gs ih =>
      intro st hst s hs
      have hst1 : 0 ≤ (applyGear st g).biomass_ub := by
        show 0 ≤ st.biomass_ub * gearFactor g
        exact mul_nonneg hst (le_of_lt (gearFactor_pos g))
      have hs' : s = applyGear st g ∨ s ∈ sweepStates (applyGear st g) gs := by
        simpa [sweepStates] using hs
      rcases hs' with h | h
      · rw [h]
        exact hst1
      · exact ih (applyGear st g) hst1 s h
  · intro st g hst
    show 0.001 * st.biomass_ub ≤ st.biomass_ub * gearFactor g
    have h : (0.001 : ℝ) ≤ gearFactor g := le_max_left _ _
    calc 0.001 * st.biomass_ub ≤ gearFactor g * st.biomass_ub :=
        mul_le_mul_of_nonneg_right h hst
    _ = st.biomass_ub * gearFactor g := mul_comm _ _

/-- C3 witness: the amended theorem applied to the literal sweep's initial
state and first gear. -/
theorem c3_amended_floor_is_relative_witness :
    0 ≤ st0.biomass_ub ∧
    0.001 * st0.biomass_ub ≤
      (applyGear st0 ⟨"Gear 1", -10.0, -18.0, 0.0⟩).biomass_ub :=
  ⟨by norm_num [st0],
   c3_amended_floor_is_relative.2 st0 _ (by norm_num [st0])⟩

end MetabolicGearShift
